import Mathlib

set_option maxRecDepth 100000

/-!
Verification development for the parrot-os touch bridge (`src/touch_input.py`).

The file shallowly embeds the touch-event handling of `TouchHandler`:
the device-event loop `handle_device`, the fan-out `broadcast`, and the
per-connection `handle_client`, together with the auxiliary Python runtime
facts the code relies on (dict semantics, `asyncio.StreamWriter` attributes,
`json.dumps` on the dictionaries the code builds).  Spec-side definitions
(the wire-frame codec of spec §6, which has no counterpart in the source)
are clearly marked as such.
-/

/-! ## Linux input event codes used by the source (`evdev.ecodes`) -/

def EV_SYN : Nat := 0

def EV_ABS : Nat := 3

def ABS_MT_SLOT : Nat := 47

def ABS_MT_POSITION_X : Nat := 53

def ABS_MT_POSITION_Y : Nat := 54

def ABS_MT_TRACKING_ID : Nat := 57

/-- A raw evdev input event as the source reads it: `event.type`,
`event.code`, `event.value`. -/
structure RawEvent where
  type : Nat
  code : Nat
  value : Int
deriving DecidableEq

/-- One entry of `self.touches`: the dict literal `\x7b'slot': tid\x7d`,
later possibly extended with keys `'x'` and `'y'`.  `x`/`y` are `none`
while the corresponding key is absent. -/
structure Touch where
  slot : Int
  x : Option Int := none
  y : Option Int := none
deriving DecidableEq

/-- `self.touches`: a Python dict `tracking_id -> touch` modelled as an
insertion-ordered association list with unique keys (Python 3 dicts preserve
insertion order, which the lift loop iterates). -/
abbrev Touches := List (Int × Touch)

/-- `d[k]` lookup returning `none` when the key is absent. -/
def dictGet (d : Touches) (k : Int) : Option Touch :=
  match d with
  | [] => none
  | (k2, v2) :: rest => if k2 = k then some v2 else dictGet rest k

/-- `d[k] = v`: replace in place when the key exists (keeping its position),
append otherwise — Python dict assignment. -/
def dictSet (d : Touches) (k : Int) (v : Touch) : Touches :=
  match d with
  | [] => [(k, v)]
  | (k2, v2) :: rest => if k2 = k then (k, v) :: rest else (k2, v2) :: dictSet rest k v

/-- `del d[k]` (keys are unique, so filtering removes the one entry). -/
def dictDel (d : Touches) (k : Int) : Touches :=
  d.filter (fun p => p.1 != k)

/-- A Python value appearing in the broadcast dictionaries: a string or an int. -/
inductive PyVal where
  | s (v : String)
  | i (v : Int)
deriving DecidableEq

/-- A dictionary handed to `self.broadcast`, as an insertion-ordered
key/value list (the order the source writes the dict literal in). -/
abbrev Msg := List (String × PyVal)

/-- Lookup of a key in a broadcast dictionary. -/
def lookupKey (m : Msg) (k : String) : Option PyVal :=
  (m.find? (fun p => p.1 == k)).map Prod.snd

/-- One iteration of the body of `handle_device`'s `async for` loop
(`src/touch_input.py` lines 62–109), for one raw event: the updated
`self.touches` and the list of dictionaries passed to `self.broadcast`
during that iteration (each branch broadcasts at most once).

Faithful to the source:
* `event.type == EV_ABS` with `event.code == ABS_MT_TRACKING_ID`:
  - `value == -1`: scan `self.touches.items()` in order for the first entry
    whose `'slot'` equals `event.value` (i.e. -1 — the comparison the source
    wrote), delete it and broadcast `touch_end`; otherwise do nothing.
  - otherwise: `self.touches[value] = \x7b'slot': value\x7d` (replacing any
    previous entry wholesale) and broadcast `touch_start` with only
    `type` and `id` keys.
* `ABS_MT_POSITION_X` / `ABS_MT_POSITION_Y`: `tracking_id` is `None` at this
  point (the source never sets it before these branches), so it becomes
  `len(self.touches)`; a missing entry is created as `\x7b'slot': tid\x7d`;
  the coordinate is assigned; one `touch_move` is broadcast with the other
  coordinate read back via `.get(..., 0)`.
* any other `EV_ABS` code (including `ABS_MT_SLOT`) matches no branch;
  `EV_SYN` hits `pass`; both leave the state unchanged and emit nothing. -/
def step (touches : Touches) (e : RawEvent) : Touches × List Msg :=
  if e.type = EV_ABS then
    if e.code = ABS_MT_TRACKING_ID then
      if e.value = -1 then
        match touches.find? (fun p => p.2.slot == e.value) with
        | some p =>
            (dictDel touches p.1,
             [[("type", PyVal.s "touch_end"), ("id", PyVal.i p.1)]])
        | none => (touches, [])
      else
        (dictSet touches e.value { slot := e.value },
         [[("type", PyVal.s "touch_start"), ("id", PyVal.i e.value)]])
    else if e.code = ABS_MT_POSITION_X then
      let tid : Int := Int.ofNat touches.length
      let t0 : Touch := (dictGet touches tid).getD { slot := tid }
      let t1 : Touch := { t0 with x := some e.value }
      (dictSet touches tid t1,
       [[("type", PyVal.s "touch_move"), ("id", PyVal.i tid),
         ("x", PyVal.i e.value), ("y", PyVal.i (t1.y.getD 0))]])
    else if e.code = ABS_MT_POSITION_Y then
      let tid : Int := Int.ofNat touches.length
      let t0 : Touch := (dictGet touches tid).getD { slot := tid }
      let t1 : Touch := { t0 with y := some e.value }
      (dictSet touches tid t1,
       [[("type", PyVal.s "touch_move"), ("id", PyVal.i tid),
         ("x", PyVal.i (t1.x.getD 0)), ("y", PyVal.i e.value)]])
    else
      (touches, [])
  else
    (touches, [])

/-- Run `step` over a list of raw events, concatenating the broadcast
payloads in emission order. -/
def runEvents (touches : Touches) : List RawEvent → Touches × List Msg
  | [] => (touches, [])
  | e :: rest =>
      let p := step touches e
      let r := runEvents p.1 rest
      (r.1, p.2 ++ r.2)

/-- Per-event emission trace: entry `i` is the list of payloads broadcast
while processing event `i`. -/
def runTrace (touches : Touches) : List RawEvent → List (List Msg)
  | [] => []
  | e :: rest => (step touches e).2 :: runTrace (step touches e).1 rest

/-! ## `json.dumps` on the dictionaries the source builds

The broadcast dictionaries only contain short ASCII string keys and
string/int values, for which `json.dumps` with its default arguments
produces `\x7b"k": v, ...\x7d` with `", "` and `": "` separators, escaping
`"` and `\` inside strings. -/

/-- JSON string escaping for the characters occurring in the payloads the
source produces (quote and backslash; all other payload characters are
printable ASCII that `json.dumps` passes through). -/
def escChar (c : Char) : String :=
  if c = '"' then "\\\"" else if c = '\\' then "\\\\" else String.singleton c

/-- Escape a Python string for JSON output. -/
def escape (s : String) : String :=
  String.join (s.data.map escChar)

/-- `json.dumps` of one value. -/
def pyValDump : PyVal → String
  | PyVal.s v => "\"" ++ escape v ++ "\""
  | PyVal.i v => toString v

/-- `json.dumps` of a broadcast dictionary (insertion order, default
separators). -/
def jsonDumps (m : Msg) : String :=
  "\x7b" ++
    String.intercalate ", "
      (m.map (fun p => "\"" ++ escape p.1 ++ "\": " ++ pyValDump p.2)) ++
  "\x7d"

/-! ## The broadcast layer (`TouchHandler.broadcast`, lines 114–121)

`self.clients` holds the `asyncio.StreamWriter` objects registered by
`handle_client`.  `broadcast` evaluates
`asyncio.gather(*[client.send(msg) for client in self.clients],
return_exceptions=True)`: the list comprehension evaluates
`client.send(msg)` eagerly, and the attribute lookup `client.send` raises
`AttributeError` (an `asyncio.StreamWriter` has no attribute `send`), so
for a non-empty client set the comprehension itself raises before
`asyncio.gather` is ever called — `return_exceptions=True` never applies
and the exception propagates out of `broadcast`. -/

/-- A Python exception relevant to this code path. -/
inductive PyErr where
  | attributeError
deriving DecidableEq

/-- One registered client: an `asyncio.StreamWriter`.  `sent` is the
payload log of everything successfully handed to its transport. -/
structure StreamWriter where
  wid : Nat
  sent : List String := []
deriving DecidableEq

/-- The public attributes of `asyncio.StreamWriter` (Python 3 asyncio
streams API).  Note there is no `send`. -/
def streamWriterAttrs : List String :=
  ["write", "writelines", "close", "can_write_eof", "write_eof",
   "transport", "get_extra_info", "drain", "is_closing", "wait_closed"]

/-- Outcome of the attribute lookup `getattr(writer, name)` on an
`asyncio.StreamWriter`: `AttributeError` when the attribute is absent. -/
def writerGetattrOutcome (name : String) : Except PyErr Unit :=
  if name ∈ streamWriterAttrs then Except.ok () else Except.error PyErr.attributeError

/-- `TouchHandler.broadcast(data)`: returns the final client writers and
either the list of per-client results that `asyncio.gather` would collect,
or the exception that escapes `broadcast`.

* empty client set: `if self.clients:` is false — return immediately;
* otherwise `msg = json.dumps(data)` and the comprehension
  `[client.send(msg) for client in self.clients]` is evaluated: the
  attribute lookup on its first element decides the outcome.  Were `send`
  an attribute, each client would receive `msg`; since it is not, the
  comprehension raises `AttributeError` with no client mutated and
  `gather` never runs. -/
def broadcast (clients : List StreamWriter) (data : Msg) :
    List StreamWriter × Except PyErr (List Unit) :=
  if clients.isEmpty then (clients, Except.ok [])
  else
    let msg := jsonDumps data
    match writerGetattrOutcome "send" with
    | Except.error e => (clients, Except.error e)
    | Except.ok _ =>
        (clients.map (fun w => { w with sent := w.sent ++ [msg] }),
         Except.ok (clients.map (fun _ => ())))

/-- The bytes a client's peer has received: UTF-8 of the logged payloads
(the payloads here are ASCII). -/
def strBytes (s : String) : List Nat :=
  s.data.map Char.toNat

/-- All bytes ever sent to one client. -/
def wireBytes (w : StreamWriter) : List Nat :=
  (w.sent.map strBytes).flatten

/-- State of the device-reading loop: `self.touches` and `self.clients`. -/
structure DevState where
  touches : Touches
  clients : List StreamWriter
deriving DecidableEq

/-- `TouchHandler.handle_device`'s `async for` loop over a finite event
list, including the surrounding `try`/`except` (lines 57–112): each raw
event updates `self.touches` per `step` and then performs the at most one
`await self.broadcast(...)` of that iteration; if `broadcast` raises, the
exception is caught by the outer `except`, which prints and returns —
terminating the loop.  Result: final state, the payloads for which a
broadcast call was attempted, and whether the loop was aborted by an
exception. -/
def handle_device (st : DevState) : List RawEvent → DevState × List Msg × Bool
  | [] => (st, [], false)
  | e :: rest =>
      match step st.touches e with
      | (s2, []) => handle_device ⟨s2, st.clients⟩ rest
      | (s2, m :: _) =>
          match broadcast st.clients m with
          | (cs2, Except.error _) => (⟨s2, cs2⟩, [m], true)
          | (cs2, Except.ok _) =>
              let r := handle_device ⟨s2, cs2⟩ rest
              (r.1, m :: r.2.1, r.2.2)

/-- Sanity check of the `json.dumps` embedding on a payload the source
actually builds. -/
theorem jsonDumps_touch_end :
    jsonDumps [("type", PyVal.s "touch_end"), ("id", PyVal.i 5)] =
      "\x7b\"type\": \"touch_end\", \"id\": 5\x7d" := by
  decide

/-! ## The per-connection handler (`TouchHandler.handle_client`, lines 144–167)

`handle_client(reader, writer)` writes the four fixed response lines,
drains, adds the writer to `self.clients`, then loops on
`reader.read(1024)` until an empty read (EOF) or an exception; the
`finally` block runs `self.clients.discard(writer)` and `writer.close()`.
We model the inbound byte stream as the finite list of results the
successive `read` calls produce, and the handler as the trace of observable
actions it performs on that input. -/

/-- Result of one `await reader.read(1024)`: a chunk of bytes (the empty
string signalling EOF, exactly as in Python) or a raised read error. -/
inductive ReadResult where
  | chunk (s : String)
  | err
deriving DecidableEq

/-- An observable action of `handle_client`. -/
inductive ClientAction where
  | write (s : String)
  | drain
  | register
  | readAct
  | unregister
  | close
deriving DecidableEq

/-- The unconditional prefix of every `handle_client` run: the four
response writes, the drain, and the registration into `self.clients`. -/
def handshakeActions : List ClientAction :=
  [ClientAction.write "HTTP/1.1 101 Switching Protocols\r\n",
   ClientAction.write "Upgrade: websocket\r\n",
   ClientAction.write "Connection: Upgrade\r\n",
   ClientAction.write "Sec-WebSocket-Accept: *\r\n\r\n",
   ClientAction.drain,
   ClientAction.register]

/-- Actions of the `while True` read loop: each iteration performs one
read; an empty chunk breaks the loop, a read error raises (caught by the
surrounding `except`), any other chunk continues. -/
def loopActions : List ReadResult → List ClientAction
  | [] => []
  | ReadResult.chunk s :: rest =>
      if s = "" then [ClientAction.readAct]
      else ClientAction.readAct :: loopActions rest
  | ReadResult.err :: _ => [ClientAction.readAct]

/-- Whether the read loop exits within the given input (EOF chunk or a
read error); when it does, control reaches the `finally` block. -/
def loopTerminates : List ReadResult → Bool
  | [] => false
  | ReadResult.chunk s :: rest => if s = "" then true else loopTerminates rest
  | ReadResult.err :: _ => true

/-- The action trace of `handle_client` on a given inbound stream.  The
`finally` block (`discard` + `close`) runs exactly when the loop exits
within the modelled input. -/
def handle_client (input : List ReadResult) : List ClientAction :=
  handshakeActions ++ loopActions input ++
    (if loopTerminates input then [ClientAction.unregister, ClientAction.close] else [])

/-- `self.clients.discard(writer)`: set removal, a no-op when absent. -/
def clientsDiscard (cs : List StreamWriter) (w : StreamWriter) : List StreamWriter :=
  cs.filter (fun x => x != w)

/-! ## Spec-side wire frame codec

The source contains no frame codec at all (`broadcast` hands the bare JSON
text to the nonexistent `client.send`), so the codec below is NOT an
embedding of source code: it follows the words of spec §6 and exists only
to be compared against what the code actually puts on the wire. -/

/-- Modelled from the spec (§6, wire frame format): byte 0 is the opcode
(`0x81` final text frame), then the three-tier length encoding — lengths
below 126 inline in one byte; `126` plus a 2-byte big-endian length below
65536; `127` plus an 8-byte big-endian length otherwise — then the payload
bytes. -/
def specFrameEncode (payload : List Nat) : List Nat :=
  let n := payload.length
  if n < 126 then 129 :: n :: payload
  else if n < 65536 then 129 :: 126 :: (n / 256) :: (n % 256) :: payload
  else
    129 :: 127 ::
      ([n / 2 ^ 56 % 256, n / 2 ^ 48 % 256, n / 2 ^ 40 % 256, n / 2 ^ 32 % 256,
        n / 2 ^ 24 % 256, n / 2 ^ 16 % 256, n / 2 ^ 8 % 256, n % 256] ++ payload)

/-- Modelled from the spec (§6): decoder for a single final text frame
under the three-tier length encoding; `none` on anything that is not a
well-formed frame. -/
def specFrameDecode : List Nat → Option (List Nat)
  | op :: l :: rest =>
      if op = 129 then
        if l < 126 then (if rest.length = l then some rest else none)
        else if l = 126 then
          match rest with
          | b1 :: b2 :: payload =>
              if payload.length = b1 * 256 + b2 then some payload else none
          | _ => none
        else if l = 127 then
          match rest with
          | b1 :: b2 :: b3 :: b4 :: b5 :: b6 :: b7 :: b8 :: payload =>
              if payload.length =
                  ((((((b1 * 256 + b2) * 256 + b3) * 256 + b4) * 256 + b5) * 256 + b6)
                      * 256 + b7) * 256 + b8
              then some payload else none
          | _ => none
        else none
      else none
  | _ => none

/-! ## Helper lemmas -/

/-- For a non-empty client set, `broadcast` raises `AttributeError` out of
the list comprehension (before `asyncio.gather` runs) and leaves every
client untouched. -/
theorem broadcast_raises (clients : List StreamWriter) (data : Msg)
    (h : clients ≠ []) :
    broadcast clients data = (clients, Except.error PyErr.attributeError) := by
  cases clients with
  | nil => exact absurd rfl h
  | cons c cs => rfl

/-- Assigning an absent key to a Python dict grows it by one entry. -/
theorem dictSet_length_of_get_none (d : Touches) (k : Int) (v : Touch)
    (h : dictGet d k = none) : (dictSet d k v).length = d.length + 1 := by
  induction d with
  | nil => rfl
  | cons p rest ih =>
      obtain ⟨k2, v2⟩ := p
      by_cases hk : k2 = k
      · simp [dictGet, hk] at h
      · simp only [dictGet, if_neg hk] at h
        simp [dictSet, hk, ih h]

/-! ## Claims -/

/-- Claim C1, counterexample.  In the run `[SYN, X=10, SYN]` the position
event — which sits strictly between two frame-commit (EV_SYN) markers — is
not a commit marker yet immediately emits a `touch_move`, while the closing
commit marker flushes nothing: the code broadcasts eagerly per raw event
rather than batching output to the commit boundary. -/
theorem c1_counterexample :
    runTrace [] [⟨0, 0, 0⟩, ⟨3, 53, 10⟩, ⟨0, 0, 0⟩] =
      [[], [[("type", PyVal.s "touch_move"), ("id", PyVal.i 0),
             ("x", PyVal.i 10), ("y", PyVal.i 0)]], []] ∧
    (⟨3, 53, 10⟩ : RawEvent).type ≠ EV_SYN := by
  decide

/-- Claim C1, amended: the touch handler emits eagerly, not at commit
boundaries.  A frame-commit (EV_SYN) event — indeed any non-EV_ABS event —
emits nothing and leaves the state unchanged, while each X or Y position
event immediately emits exactly one `touch_move`, and each non-lift
tracking-id event immediately emits exactly one `touch_start`. -/
theorem c1_amended :
    (∀ (s : Touches) (c : Nat) (v : Int), step s ⟨0, c, v⟩ = (s, [])) ∧
    (∀ (s : Touches) (v : Int), ((step s ⟨3, 53, v⟩).2).length = 1) ∧
    (∀ (s : Touches) (v : Int), ((step s ⟨3, 54, v⟩).2).length = 1) ∧
    (∀ (s : Touches) (v : Int), v ≠ -1 → ((step s ⟨3, 57, v⟩).2).length = 1) := by
  refine ⟨fun s c v => rfl, fun s v => rfl, fun s v => rfl, fun s v hv => ?_⟩
  simp [step, hv, EV_ABS, ABS_MT_TRACKING_ID]

/-- Claim C1 witness: the amended theorem instantiated at the concrete
tracking-id event `(EV_ABS, ABS_MT_TRACKING_ID, 5)` on the empty state. -/
theorem c1_witness :
    ((5 : Int) ≠ -1) ∧ ((step [] ⟨3, 57, 5⟩).2).length = 1 :=
  ⟨by decide, c1_amended.2.2.2 [] 5 (by decide)⟩

/-- Claim C2: evaluating the code at the failing input.  After a touch
starts with tracking id 5, the lift event `(EV_ABS, ABS_MT_TRACKING_ID, -1)`
emits nothing and removes nothing: the output of the whole run is the lone
`touch_start` and the touch is still in `self.touches`.  The source's lift
branch compares each touch's `'slot'` to `event.value` (which is `-1` in
that branch), a test no stored touch ever satisfies, so the `del` and the
`touch_end` broadcast are dead code. -/
theorem c2_code_eval :
    runEvents [] [⟨3, 57, 5⟩, ⟨3, 57, -1⟩] =
      ([(5, ⟨5, none, none⟩)],
       [[("type", PyVal.s "touch_start"), ("id", PyVal.i 5)]]) := by
  decide

/-- The raw sequence of claim C3: `[slot=0, trackingId=5, X=10, Y=20, COMMIT]`. -/
def c3_input : List RawEvent :=
  [⟨3, 47, 0⟩, ⟨3, 57, 5⟩, ⟨3, 53, 10⟩, ⟨3, 54, 20⟩, ⟨0, 0, 0⟩]

/-- The two events claim C3 says the sequence yields. -/
def c3_claimed : List Msg :=
  [[("type", PyVal.s "touch_start"), ("id", PyVal.i 5),
    ("x", PyVal.i 0), ("y", PyVal.i 0)],
   [("type", PyVal.s "touch_move"), ("id", PyVal.i 5),
    ("x", PyVal.i 10), ("y", PyVal.i 20)]]

/-- Claim C3: evaluating the code at the failing input.  The code emits
three events, none matching the claim: a `touch_start` for id 5 carrying no
coordinate fields at all, then — because the position branches take
`len(self.touches)` as the tracking id — a `touch_move` for a phantom touch
id 1 with `(10, 0)` and another for a phantom id 2 with `(0, 20)`; the
commit marker emits nothing, and the table ends with three entries. -/
theorem c3_code_eval :
    runEvents [] c3_input =
      ([(5, ⟨5, none, none⟩), (1, ⟨1, some 10, none⟩), (2, ⟨2, none, some 20⟩)],
       [[("type", PyVal.s "touch_start"), ("id", PyVal.i 5)],
        [("type", PyVal.s "touch_move"), ("id", PyVal.i 1),
         ("x", PyVal.i 10), ("y", PyVal.i 0)],
        [("type", PyVal.s "touch_move"), ("id", PyVal.i 2),
         ("x", PyVal.i 0), ("y", PyVal.i 20)]]) ∧
    (runEvents [] c3_input).2 ≠ c3_claimed := by
  decide

/-- Claim C4, counterexample.  With one registered client, `broadcast` does
NOT return normally: the `client.send` attribute lookup raises
`AttributeError` while the argument list of `asyncio.gather` is being
built, so `return_exceptions=True` never gets the chance to swallow it; and
the exception does surface to the device-reading loop, whose `try`/`except`
catches it and terminates the loop. -/
theorem c4_counterexample :
    (broadcast [⟨0, []⟩] [("type", PyVal.s "touch_end"), ("id", PyVal.i 5)]).2 =
      Except.error PyErr.attributeError ∧
    (handle_device ⟨[], [⟨0, []⟩]⟩ [⟨3, 57, 5⟩]).2.2 = true :=
  ⟨rfl, by decide⟩

/-- Claim C4, amended.  Each registered client is an asyncio StreamWriter
with no `send` attribute, so with a non-empty client set `broadcast` raises
`AttributeError` out of the list comprehension — before `asyncio.gather`
runs, making `return_exceptions=True` irrelevant — having written zero
bytes to every client (the client list is returned unchanged).  In the
device-reading loop the first attempted broadcast therefore aborts the
loop via its `except` handler: at most one broadcast is ever attempted,
and no subscriber ever receives any touch event payload. -/
theorem c4_amended :
    ∀ (clients : List StreamWriter) (data : Msg), clients ≠ [] →
      (broadcast clients data).2 = Except.error PyErr.attributeError ∧
      (broadcast clients data).1 = clients ∧
      ∀ (touches : Touches) (events : List RawEvent),
        (handle_device ⟨touches, clients⟩ events).1.clients = clients ∧
        ((handle_device ⟨touches, clients⟩ events).2.1 ≠ [] →
          (handle_device ⟨touches, clients⟩ events).2.2 = true ∧
          ((handle_device ⟨touches, clients⟩ events).2.1).length = 1) := by
  intro clients data h
  refine ⟨by rw [broadcast_raises clients data h],
          by rw [broadcast_raises clients data h], ?_⟩
  intro touches events
  induction events generalizing touches with
  | nil => exact ⟨rfl, by simp [handle_device]⟩
  | cons e rest ih =>
      rcases hs : step touches e with ⟨s2, out⟩
      cases out with
      | nil => simpa [handle_device, hs] using ih s2
      | cons m tl =>
          have hb := broadcast_raises clients m h
          constructor
          · simp [handle_device, hs, hb]
          · simp [handle_device, hs, hb]

/-- Claim C4 witness: the amended theorem at one concrete client and the
concrete run whose single tracking-id event attempts the sole broadcast. -/
theorem c4_witness :
    (([⟨0, []⟩] : List StreamWriter) ≠ []) ∧
    (broadcast [⟨0, []⟩] [("type", PyVal.s "touch_start"), ("id", PyVal.i 5)]).2 =
      Except.error PyErr.attributeError ∧
    ((handle_device ⟨[], [⟨0, []⟩]⟩ [⟨3, 57, 5⟩]).2.1 ≠ []) ∧
    (handle_device ⟨[], [⟨0, []⟩]⟩ [⟨3, 57, 5⟩]).2.2 = true :=
  ⟨by decide,
   (c4_amended [⟨0, []⟩] [("type", PyVal.s "touch_start"), ("id", PyVal.i 5)]
      (by decide)).1,
   by decide,
   (((c4_amended [⟨0, []⟩] [("type", PyVal.s "touch_start"), ("id", PyVal.i 5)]
        (by decide)).2.2 [] [⟨3, 57, 5⟩]).2 (by decide)).1⟩

/-- Claim C5, counterexample.  Processing the X position event
`(EV_ABS, ABS_MT_POSITION_X, 10)` from the empty state — where no slot has
any live TouchPoint — is not a no-op: it creates a phantom touch keyed
`len(self.touches)` (here 0) and immediately emits a `touch_move` for it. -/
theorem c5_counterexample :
    step [] ⟨3, 53, 10⟩ =
      ([(0, ⟨0, some 10, none⟩)],
       [[("type", PyVal.s "touch_move"), ("id", PyVal.i 0),
         ("x", PyVal.i 10), ("y", PyVal.i 0)]]) ∧
    step [] ⟨3, 53, 10⟩ ≠ ([], []) := by
  decide

/-- Claim C5, amended.  An X or Y position event always addresses the id
`len(self.touches)`; whenever that id is not a key of the table the code
creates a new TouchPoint under it (growing the table by one entry) and
still emits exactly one `touch_move` — never a no-op as specified. -/
theorem c5_amended :
    ∀ (s : Touches) (v : Int),
      dictGet s (Int.ofNat s.length) = none →
      ((step s ⟨3, 53, v⟩).1).length = s.length + 1 ∧
      ((step s ⟨3, 53, v⟩).2).length = 1 ∧
      ((step s ⟨3, 54, v⟩).1).length = s.length + 1 ∧
      ((step s ⟨3, 54, v⟩).2).length = 1 := by
  intro s v h
  exact ⟨dictSet_length_of_get_none s _ _ h, rfl,
         dictSet_length_of_get_none s _ _ h, rfl⟩

/-- Claim C5 witness: the amended theorem at the empty table and the
concrete X event with value 10. -/
theorem c5_witness :
    (dictGet [] (Int.ofNat (List.length ([] : Touches))) = none) ∧
    ((step [] ⟨3, 53, 10⟩).1).length = List.length ([] : Touches) + 1 :=
  ⟨rfl, (c5_amended [] 10 rfl).1⟩

/-- Claim C6, counterexample.  On a malformed, incomplete upgrade request
followed by EOF, `handle_client`'s very first action is writing the 101
status line — before any read — and the connection is still registered as a
subscriber: nothing is consumed first, nothing is validated, nothing is
rejected. -/
theorem c6_counterexample :
    handle_client [ReadResult.chunk "GET /bad HTTP/1.1\r\n", ReadResult.chunk ""] =
      [ClientAction.write "HTTP/1.1 101 Switching Protocols\r\n",
       ClientAction.write "Upgrade: websocket\r\n",
       ClientAction.write "Connection: Upgrade\r\n",
       ClientAction.write "Sec-WebSocket-Accept: *\r\n\r\n",
       ClientAction.drain, ClientAction.register,
       ClientAction.readAct, ClientAction.readAct,
       ClientAction.unregister, ClientAction.close] ∧
    (handle_client [ReadResult.chunk "GET /bad HTTP/1.1\r\n", ReadResult.chunk ""]).head? =
      some (ClientAction.write "HTTP/1.1 101 Switching Protocols\r\n") ∧
    ClientAction.register ∈
      handle_client [ReadResult.chunk "GET /bad HTTP/1.1\r\n", ReadResult.chunk ""] := by
  decide

/-- Claim C6, amended.  The server never consumes or validates an upgrade
request: for every inbound stream whatsoever, the first six actions of
`handle_client` are the four protocol-upgrade response writes, the drain,
and the registration of the connection as a subscriber; reads happen only
afterwards, and no connection is ever rejected. -/
theorem c6_amended :
    ∀ input : List ReadResult, (handle_client input).take 6 = handshakeActions :=
  fun _ => rfl

/-- Claim C7, counterexample.  A write failure does not remove the failing
subscriber: `broadcast` returns the client set unchanged — the client that
just failed is still registered and will be targeted by every subsequent
publish — and the failure propagates out of `broadcast` (to the
device-reading loop) instead of being contained to that connection. -/
theorem c7_counterexample :
    (broadcast [⟨0, []⟩] [("type", PyVal.s "touch_move"), ("id", PyVal.i 1),
        ("x", PyVal.i 10), ("y", PyVal.i 0)]).1 = [⟨0, []⟩] ∧
    (broadcast [⟨0, []⟩] [("type", PyVal.s "touch_move"), ("id", PyVal.i 1),
        ("x", PyVal.i 10), ("y", PyVal.i 0)]).2 =
      Except.error PyErr.attributeError :=
  ⟨rfl, rfl⟩

/-- Claim C7, amended.  A failure while writing to a subscriber leaves that
subscriber registered (every member of the client set is still a member
after `broadcast`); the write is indeed never retried, but the failure is
not contained either: it propagates out of `broadcast` as the exception of
the whole call.  Subscribers are removed only by their own read path. -/
theorem c7_amended :
    ∀ (clients : List StreamWriter) (data : Msg) (w : StreamWriter),
      w ∈ clients →
      w ∈ (broadcast clients data).1 ∧
      (broadcast clients data).2 = Except.error PyErr.attributeError := by
  intro clients data w hw
  rw [broadcast_raises clients data (List.ne_nil_of_mem hw)]
  exact ⟨hw, rfl⟩

/-- Claim C7 witness: the amended theorem at one concrete registered
writer and one concrete payload. -/
theorem c7_witness :
    ((⟨0, []⟩ : StreamWriter) ∈ ([⟨0, []⟩] : List StreamWriter)) ∧
    (⟨0, []⟩ : StreamWriter) ∈
      (broadcast [⟨0, []⟩] [("type", PyVal.s "touch_end"), ("id", PyVal.i 5)]).1 :=
  ⟨by decide,
   (c7_amended [⟨0, []⟩] [("type", PyVal.s "touch_end"), ("id", PyVal.i 5)]
      ⟨0, []⟩ (by decide)).1⟩

/-- Claim C8, confirmed.  When the read loop observes EOF (an empty read)
or a read error, control reaches the `finally` block: the trace ends with
the unsubscribe followed by the socket close; and the teardown is
idempotent — `self.clients.discard(writer)` applied twice equals applying
it once, and the discarded writer is no longer a member of the registry
(so no later broadcast, which targets exactly the registry, includes it). -/
theorem c8_confirmed :
    (∀ input : List ReadResult, loopTerminates input = true →
       ∃ pre, handle_client input =
         pre ++ [ClientAction.unregister, ClientAction.close]) ∧
    (∀ (cs : List StreamWriter) (w : StreamWriter),
       clientsDiscard (clientsDiscard cs w) w = clientsDiscard cs w) ∧
    (∀ (cs : List StreamWriter) (w : StreamWriter), w ∉ clientsDiscard cs w) := by
  refine ⟨?_, ?_, ?_⟩
  · intro input h
    exact ⟨handshakeActions ++ loopActions input,
           by simp [handle_client, h, List.append_assoc]⟩
  · intro cs w
    simp [clientsDiscard, List.filter_filter]
  · intro cs w
    simp [clientsDiscard, List.mem_filter]

/-- Claim C8 witness: the confirmed theorem at the concrete one-EOF input
and a concrete two-writer registry. -/
theorem c8_witness :
    (loopTerminates [ReadResult.chunk ""] = true) ∧
    (∃ pre, handle_client [ReadResult.chunk ""] =
       pre ++ [ClientAction.unregister, ClientAction.close]) ∧
    clientsDiscard (clientsDiscard [⟨0, []⟩, ⟨1, []⟩] ⟨0, []⟩) ⟨0, []⟩ =
      clientsDiscard [⟨0, []⟩, ⟨1, []⟩] ⟨0, []⟩ ∧
    (⟨0, []⟩ : StreamWriter) ∉ clientsDiscard [⟨0, []⟩, ⟨1, []⟩] ⟨0, []⟩ :=
  ⟨rfl, c8_confirmed.1 [ReadResult.chunk ""] rfl,
   c8_confirmed.2.1 [⟨0, []⟩, ⟨1, []⟩] ⟨0, []⟩,
   c8_confirmed.2.2 [⟨0, []⟩, ⟨1, []⟩] ⟨0, []⟩⟩

/-- The concrete payload of claim C9: a JSON-serializable dict whose
`json.dumps` text is exactly 130 bytes, exercising the 16-bit length tier
the spec describes. -/
def payloadMsg130 : Msg :=
  [("pad", PyVal.s (String.mk (List.replicate 119 'a')))]

/-- Claim C9, counterexample.  For a 130-byte JSON payload the bytes sent
to a registered client by `broadcast` are none at all — the client's wire
log stays empty, because the code never frames anything and `client.send`
does not even exist — and the empty byte sequence does not decode to the
payload under the spec's three-tier frame format. -/
theorem c9_counterexample :
    (strBytes (jsonDumps payloadMsg130)).length = 130 ∧
    ((broadcast [⟨0, []⟩] payloadMsg130).1).map wireBytes = [[]] ∧
    specFrameDecode [] = none := by
  refine ⟨by decide, rfl, rfl⟩

/-- Claim C9, amended.  The source contains no frame codec: `broadcast`
never changes any client's wire bytes (nothing is ever sent, framed or
unframed), so no three-tier length encoding is ever applied.  The spec's
own three-tier codec — modelled separately from §6 — does round-trip a
130-byte payload through its 16-bit length tier, but no code path produces
such a frame. -/
theorem c9_amended :
    (∀ (clients : List StreamWriter) (data : Msg),
        ((broadcast clients data).1).map wireBytes = clients.map wireBytes) ∧
    specFrameDecode (specFrameEncode (List.replicate 130 97)) =
      some (List.replicate 130 97) := by
  refine ⟨?_, by decide⟩
  intro clients data
  cases clients with
  | nil => rfl
  | cons c cs => rw [broadcast_raises (c :: cs) data (List.cons_ne_nil c cs)]

/-- Claim C10, counterexample.  The event emitted for a new touch with
tracking id 5 is the dict with exactly the keys `type` and `id`: it carries
no `seq` field at all, so no seq value is ever assigned or delivered. -/
theorem c10_counterexample :
    (runEvents [] [⟨3, 57, 5⟩]).2 =
      [[("type", PyVal.s "touch_start"), ("id", PyVal.i 5)]] ∧
    lookupKey [("type", PyVal.s "touch_start"), ("id", PyVal.i 5)] "seq" = none := by
  decide

/-- Claim C10, amended.  No emitted TouchEvent carries a `seq` field: for
every state and every raw event, every dict the handler broadcasts lacks
the key `seq` — the code maintains no sequence counter of any kind, so
subscribers receive no sequence numbers to order events by or detect gaps
with. -/
theorem c10_amended :
    ∀ (s : Touches) (e : RawEvent),
      ((step s e).2).all (fun m => (lookupKey m "seq").isNone) = true := by
  intro s e
  unfold step
  repeat' split
  all_goals rfl
